import Mathlib

/-!
Verification of the temporary-ban plugin (`main.py`).

The plugin keeps a temporary blacklist (a dictionary from normalized user id
to an absolute unblock timestamp), an administrator list, a lazily resolved
bot id, and a configured default ban duration.  We embed the Python code
shallowly:

* Python strings become `List Char`; raw identifiers (which may be ints,
  strings, or arbitrary objects) become the tagged union `RawId`.
* The dictionary `self.temporary_blacklist` becomes a function
  `UserId → Option Int` (Python dict semantics: point update, point delete).
* `time.time()` and durations become `Int` (seconds / minutes); the code only
  adds, multiplies and compares them.
* Exceptions raised by `config.save_config()` are modelled by a `save_fails`
  flag; a function that may propagate the exception returns a `Bool`
  (`raised`) alongside the state it had already mutated, mirroring the fact
  that Python object mutations performed before the raise persist.
* Logging is side-effect free for the state and is dropped.
-/

/-- Normalized user identifier: the Python `str` produced by
`_normalize_user_id`, as a list of characters. -/
abbrev UserId := List Char

/-- A raw identifier as it arrives from the host API: an `int`, a `str`, or
some other object.  For the fallback case the embedding carries the result of
Python's `str(...)` applied to the object, since the code only ever
stringifies it. -/
inductive RawId where
  | int (n : Int)
  | str (s : List Char)
  | other (stringified : List Char)
deriving DecidableEq, Repr

/-- Python `s.split("_")` for a character list: split on every underscore,
keeping empty segments; the empty string splits to `[""]`. -/
def pySplit : List Char → List (List Char)
  | [] => [[]]
  | c :: rest =>
    if c = '_' then [] :: pySplit rest
    else
      match pySplit rest with
      | [] => [[c]]
      | seg :: segs => (c :: seg) :: segs

/-- Python `s.strip()`: drop whitespace from the front, then from the back
(implemented by reversing, dropping from the front, and reversing back). -/
def pyStrip (s : List Char) : List Char :=
  ((s.dropWhile Char.isWhitespace).reverse.dropWhile Char.isWhitespace).reverse

/-- Embeds `_normalize_user_id`: ints are rendered in decimal, strings keep the last
underscore-separated segment stripped of surrounding whitespace, and anything
else is stringified. -/
def normalize_user_id : RawId → UserId
  | .int n => (toString n).data
  | .str s => pyStrip ((pySplit s).getLastD [])
  | .other stringified => stringified

/-- A component of the incoming message chain: an `At` mention (whose `qq`
field holds a raw identifier or the string `"all"`), or anything else. -/
inductive MessageComponent where
  | At (qq : RawId)
  | other
deriving DecidableEq, Repr

/-- The message sender (`event.message_obj.sender`). -/
structure Sender where
  user_id : RawId
deriving DecidableEq, Repr

/-- The message object (`event.message_obj`). -/
structure MessageObj where
  self_id : RawId
  sender : Sender
  message : List MessageComponent
deriving DecidableEq, Repr

/-- An incoming message event. -/
structure Event where
  message_obj : MessageObj
deriving DecidableEq, Repr

/-- The mutable fields of `BlacklistPlugin`.  `config_administrators` is the
in-memory copy of the `administrators` key of the config store (updated by
`self.config["administrators"] = ...`). -/
structure PluginState where
  temporary_blacklist : UserId → Option Int
  administrators : List UserId
  bot_id : UserId
  default_blacklist_duration : Int
  config_administrators : List UserId

/-- Python dict assignment `m[k] = v`. -/
def dictSet (m : UserId → Option Int) (k : UserId) (v : Int) : UserId → Option Int :=
  fun k' => if k' = k then some v else m k'

/-- Python dict deletion `del m[k]`. -/
def dictDel (m : UserId → Option Int) (k : UserId) : UserId → Option Int :=
  fun k' => if k' = k then none else m k'

/-- Embeds `_add_to_blacklist`: set the unblock timestamp to
`now + duration_minutes * 60`, overwriting any existing entry. -/
def add_to_blacklist (st : PluginState) (user_id : UserId) (duration_minutes : Int)
    (now : Int) : PluginState :=
  { st with temporary_blacklist :=
      dictSet st.temporary_blacklist user_id (now + duration_minutes * 60) }

/-- Embeds `_add_bot_to_administrators`: if the bot id is non-empty and not yet an
administrator, append it and persist the list; `save_config()` may raise
(second component `true` when `save_fails` and the save was attempted). -/
def add_bot_to_administrators (st : PluginState) (save_fails : Bool) :
    PluginState × Bool :=
  if st.bot_id ≠ [] ∧ st.bot_id ∉ st.administrators then
    let new_admins := st.administrators ++ [st.bot_id]
    ({ st with administrators := new_admins, config_administrators := new_admins },
      save_fails)
  else (st, false)

/-- Embeds `_get_bot_id`: lazily resolve and cache the bot id from the event's
`self_id`, enrolling it as an administrator on first resolution.  Returns the
state, the bot id, and whether `save_config()` raised. -/
def get_bot_id (st : PluginState) (event : Event) (save_fails : Bool) :
    PluginState × UserId × Bool :=
  if st.bot_id = [] then
    let st1 := { st with bot_id := normalize_user_id event.message_obj.self_id }
    let r := add_bot_to_administrators st1 save_fails
    (r.1, r.1.bot_id, r.2)
  else (st, st.bot_id, false)

/-- Lines 70-79 of `check_blacklist_before_llm`: consult the blacklist for a
(non-administrator) user.  Returns the updated dictionary and whether the
event was stopped; an expired entry is deleted on read. -/
def consult_temporary_blacklist (bl : UserId → Option Int) (user_id : UserId)
    (now : Int) : (UserId → Option Int) × Bool :=
  match bl user_id with
  | some unblock_time =>
    if now < unblock_time then (bl, true)
    else (dictDel bl user_id, false)
  | none => (bl, false)

/-- Embeds `check_blacklist_before_llm`: resolve the bot id, let administrators
through, otherwise consult the blacklist.  Returns the state, whether
`event.stop_event()` was called, and whether an exception propagated. -/
def check_blacklist_before_llm (st : PluginState) (event : Event) (now : Int)
    (save_fails : Bool) : PluginState × Bool × Bool :=
  let r := get_bot_id st event save_fails
  if r.2.2 then (r.1, false, true)
  else
    let user_id := normalize_user_id event.message_obj.sender.user_id
    if user_id ∈ r.1.administrators then (r.1, false, false)
    else
      let c := consult_temporary_blacklist r.1.temporary_blacklist user_id now
      ({ r.1 with temporary_blacklist := c.1 }, c.2, false)

/-- Embeds `_extract_target_user`: first `At` mention that is neither the broadcast
mention `"all"` nor the bot itself; empty when none qualifies. -/
def extract_target_user (message_chain : List MessageComponent) (bot_id : UserId) :
    UserId :=
  match message_chain with
  | [] => []
  | .At qq :: rest =>
    if qq = RawId.str "all".data then extract_target_user rest bot_id
    else
      let at_id := normalize_user_id qq
      if at_id ≠ bot_id then at_id else extract_target_user rest bot_id
  | .other :: rest => extract_target_user rest bot_id

/-- Embeds `_handle_admin_blacklist`: validate target and duration, then ban. -/
def handle_admin_blacklist (st : PluginState) (target_id : UserId) (duration : Int)
    (now : Int) : PluginState :=
  if target_id = [] then st
  else if target_id ∈ st.administrators then st
  else if duration ≤ 0 then st
  else add_to_blacklist st target_id duration now

/-- Embeds `_handle_normal_user_blacklist`: empty target defaults to the sender;
non-positive durations are rejected; an administrator target triggers
retaliation (`max 5 duration` on the sender); otherwise only self-bans are
allowed. -/
def handle_normal_user_blacklist (st : PluginState) (sender_id target_id : UserId)
    (duration : Int) (now : Int) : PluginState :=
  let target_id := if target_id = [] then sender_id else target_id
  if duration ≤ 0 then st
  else if target_id ∈ st.administrators then
    add_to_blacklist st sender_id (max 5 duration) now
  else if target_id = sender_id then
    add_to_blacklist st sender_id duration now
  else st

/-- Embeds `handle_blacklist_request`: resolve bot id, normalize the sender, extract
the target, fill in the default duration, and dispatch by privilege.  Second
component records a propagated exception. -/
def handle_blacklist_request (st : PluginState) (event : Event)
    (duration_minutes : Option Int) (now : Int) (save_fails : Bool) :
    PluginState × Bool :=
  let r := get_bot_id st event save_fails
  if r.2.2 then (r.1, true)
  else
    let st1 := r.1
    let sender_id := normalize_user_id event.message_obj.sender.user_id
    let target_id := extract_target_user event.message_obj.message r.2.1
    let d := match duration_minutes with
      | none => st1.default_blacklist_duration
      | some d => d
    if sender_id ∈ st1.administrators then
      (handle_admin_blacklist st1 target_id d now, false)
    else
      (handle_normal_user_blacklist st1 sender_id target_id d now, false)

/-- Embeds `auto_blacklist_by_bot`: the event's sender is the target; administrators
are immune; otherwise ban for the requested or default duration.  Second
component records a propagated exception. -/
def auto_blacklist_by_bot (st : PluginState) (event : Event)
    (duration_minutes : Option Int) (now : Int) (save_fails : Bool) :
    PluginState × Bool :=
  let r := get_bot_id st event save_fails
  if r.2.2 then (r.1, true)
  else
    let st1 := r.1
    let target_id := normalize_user_id event.message_obj.sender.user_id
    if target_id ∈ st1.administrators then (st1, false)
    else
      let d := match duration_minutes with
        | none => st1.default_blacklist_duration
        | some d => d
      (add_to_blacklist st1 target_id d now, false)

/-- Splitting a character list that contains no underscore yields the
singleton list of that list (as Python's `split` does). -/
theorem pySplit_no_underscore : ∀ {s : List Char}, '_' ∉ s → pySplit s = [s]
  | [], _ => rfl
  | c :: rest, h => by
    have hc : ¬(c = '_') := fun hh => h (hh ▸ List.mem_cons_self c rest)
    have hrest : '_' ∉ rest := fun hm => h (List.mem_cons_of_mem c hm)
    simp [pySplit, hc, pySplit_no_underscore hrest]

/-- Every character of a stripped list occurs in the original list. -/
theorem mem_pyStrip {c : Char} {s : List Char} (h : c ∈ pyStrip s) : c ∈ s := by
  unfold pyStrip at h
  rw [List.mem_reverse] at h
  have h2 := (List.dropWhile_sublist Char.isWhitespace).subset h
  rw [List.mem_reverse] at h2
  exact (List.dropWhile_sublist Char.isWhitespace).subset h2

/-- Drop-from-the-front is invariant on right-stripped lists whose original
had nothing to drop from the front. -/
theorem dropWhile_rdropWhile (p : Char → Bool) (a : List Char)
    (ha : List.dropWhile p a = a) :
    List.dropWhile p (List.rdropWhile p a) = List.rdropWhile p a := by
  obtain ⟨t, ht⟩ := List.rdropWhile_prefix p a
  cases hbb : List.rdropWhile p a with
  | nil => rfl
  | cons c bs =>
    have ha2 : a = c :: (bs ++ t) := by rw [← ht, hbb, List.cons_append]
    have hc : p c = false := by
      cases hpc : p c with
      | false => rfl
      | true =>
        exfalso
        rw [ha2, List.dropWhile_cons, if_pos hpc] at ha
        have hle : (List.dropWhile p (bs ++ t)).length ≤ (bs ++ t).length :=
          (List.dropWhile_sublist p).length_le
        rw [ha] at hle
        simp only [List.length_cons] at hle
        omega
    rw [List.dropWhile_cons, if_neg (by simp [hc])]

/-- Python's `strip` is idempotent. -/
theorem pyStrip_idem (s : List Char) : pyStrip (pyStrip s) = pyStrip s := by
  have h1 : pyStrip s =
      List.rdropWhile Char.isWhitespace (s.dropWhile Char.isWhitespace) := rfl
  have h2 : pyStrip (pyStrip s) =
      List.rdropWhile Char.isWhitespace
        ((pyStrip s).dropWhile Char.isWhitespace) := rfl
  rw [h2, h1, dropWhile_rdropWhile Char.isWhitespace _
    (List.dropWhile_idempotent Char.isWhitespace s), List.rdropWhile_idempotent]

/-- On an underscore-free string, normalization is exactly `strip`. -/
theorem normalize_no_underscore {s : List Char} (h : '_' ∉ s) :
    normalize_user_id (.str s) = pyStrip s := by
  show pyStrip ((pySplit s).getLastD []) = pyStrip s
  rw [pySplit_no_underscore h]
  simp [List.getLastD]

/-- Claim C8: `normalize` maps ints to their decimal string, strings to their
last underscore-separated segment stripped of whitespace, and anything else to
its stringification; it is idempotent on underscore-free strings, and
`normalize 123 = normalize "123"`. -/
theorem normalize_user_id_spec :
    (∀ s : List Char, '_' ∉ s →
      normalize_user_id (.str (normalize_user_id (.str s))) =
        normalize_user_id (.str s))
    ∧ normalize_user_id (.int 123) = normalize_user_id (.str "123".data)
    ∧ (∀ n : Int, normalize_user_id (.int n) = (toString n).data)
    ∧ (∀ s : List Char,
        normalize_user_id (.str s) = pyStrip ((pySplit s).getLastD []))
    ∧ (∀ r : List Char, normalize_user_id (.other r) = r) := by
  refine ⟨?_, by decide, fun n => rfl, fun s => rfl, fun r => rfl⟩
  intro s h
  have h2 : '_' ∉ pyStrip s := fun hm => h (mem_pyStrip hm)
  rw [normalize_no_underscore h, normalize_no_underscore h2, pyStrip_idem]

/-- Claim C8 witness: idempotence evaluated at the concrete string `" a"`. -/
theorem normalize_user_id_spec_witness :
    normalize_user_id (.str (normalize_user_id (.str (' ' :: 'a' :: [])))) =
      normalize_user_id (.str (' ' :: 'a' :: [])) :=
  normalize_user_id_spec.1 (' ' :: 'a' :: []) (by decide)

/-- Enrolling the bot as administrator never touches the blacklist. -/
theorem add_bot_to_administrators_blacklist (st : PluginState) (sf : Bool) :
    (add_bot_to_administrators st sf).1.temporary_blacklist
      = st.temporary_blacklist := by
  unfold add_bot_to_administrators
  split <;> rfl

/-- Bot-id resolution never touches the blacklist. -/
theorem get_bot_id_blacklist (st : PluginState) (e : Event) (sf : Bool) :
    (get_bot_id st e sf).1.temporary_blacklist = st.temporary_blacklist := by
  unfold get_bot_id
  split
  · exact add_bot_to_administrators_blacklist _ _
  · rfl

/-- Bot-id resolution never touches the default duration. -/
theorem get_bot_id_default (st : PluginState) (e : Event) (sf : Bool) :
    (get_bot_id st e sf).1.default_blacklist_duration
      = st.default_blacklist_duration := by
  unfold get_bot_id add_bot_to_administrators
  split
  · dsimp only
    split <;> rfl
  · rfl

/-- With a succeeding config save, bot-id resolution never raises. -/
theorem get_bot_id_no_raise (st : PluginState) (e : Event) :
    (get_bot_id st e false).2.2 = false := by
  unfold get_bot_id add_bot_to_administrators
  split
  · dsimp only
    split <;> rfl
  · rfl

/-- Claim C2: immediately after `ban(u, d)` the registry maps `u` to
`now + d*60` (last write wins); the admission consult blocks `u` at every
time before that expiry; and the first consult at or after the expiry does
not block and deletes the entry. -/
theorem ban_then_consult (st : PluginState) (u : UserId) (d now : Int)
    (hd : 0 < d) :
    (add_to_blacklist st u d now).temporary_blacklist u = some (now + d * 60)
    ∧ (∀ t : Int, t < now + d * 60 →
        consult_temporary_blacklist
            (add_to_blacklist st u d now).temporary_blacklist u t
          = ((add_to_blacklist st u d now).temporary_blacklist, true))
    ∧ (∀ t : Int, now + d * 60 ≤ t →
        (consult_temporary_blacklist
            (add_to_blacklist st u d now).temporary_blacklist u t).2 = false
        ∧ (consult_temporary_blacklist
            (add_to_blacklist st u d now).temporary_blacklist u t).1 u = none) := by
  have hu : (add_to_blacklist st u d now).temporary_blacklist u
      = some (now + d * 60) := by
    simp [add_to_blacklist, dictSet]
  refine ⟨hu, fun t ht => ?_, fun t ht => ?_⟩
  · unfold consult_temporary_blacklist
    rw [hu]
    simp [ht]
  · unfold consult_temporary_blacklist
    rw [hu]
    have hnt : ¬(t < now + d * 60) := not_lt.mpr ht
    simp [hnt, dictDel]

/-- Claim C2 witness: ban `"u"` for 3 minutes at time 100 and consult at
time 100. -/
theorem ban_then_consult_witness :
    consult_temporary_blacklist
        (add_to_blacklist ⟨fun _ => none, [], [], 5, []⟩
          ('u' :: []) 3 100).temporary_blacklist ('u' :: []) 100
      = ((add_to_blacklist ⟨fun _ => none, [], [], 5, []⟩
          ('u' :: []) 3 100).temporary_blacklist, true) :=
  (ban_then_consult ⟨fun _ => none, [], [], 5, []⟩ ('u' :: []) 3 100
    (by decide)).2.1 100 (by decide)

/-- Claim C3: an administrator sender is always allowed: the handler returns
without stopping the event, and the blacklist is left untouched whatever it
contains. -/
theorem admin_request_allowed (st : PluginState) (e : Event) (now : Int)
    (sf : Bool)
    (hraise : (get_bot_id st e sf).2.2 = false)
    (hadmin : normalize_user_id e.message_obj.sender.user_id
      ∈ (get_bot_id st e sf).1.administrators) :
    check_blacklist_before_llm st e now sf = ((get_bot_id st e sf).1, false, false)
    ∧ (check_blacklist_before_llm st e now sf).1.temporary_blacklist
      = st.temporary_blacklist := by
  have h1 : check_blacklist_before_llm st e now sf
      = ((get_bot_id st e sf).1, false, false) := by
    unfold check_blacklist_before_llm
    dsimp only
    rw [hraise]
    simp [hadmin]
  refine ⟨h1, ?_⟩
  rw [h1]
  exact get_bot_id_blacklist st e sf

/-- Claim C3 witness: an administrator sender on a state with a resolved bot
id and a non-trivial blacklist. -/
theorem admin_request_allowed_witness :
    check_blacklist_before_llm
        ⟨fun _ => some 1000, [('a' :: [])], ('b' :: []), 5, [('a' :: [])]⟩
        ⟨⟨.str ('b' :: []), ⟨.str ('a' :: [])⟩, []⟩⟩ 50 false
      = ((get_bot_id
          ⟨fun _ => some 1000, [('a' :: [])], ('b' :: []), 5, [('a' :: [])]⟩
          ⟨⟨.str ('b' :: []), ⟨.str ('a' :: [])⟩, []⟩⟩ false).1, false, false) :=
  (admin_request_allowed
    ⟨fun _ => some 1000, [('a' :: [])], ('b' :: []), 5, [('a' :: [])]⟩
    ⟨⟨.str ('b' :: []), ⟨.str ('a' :: [])⟩, []⟩⟩ 50 false
    (by decide) (by decide)).1

/-- Claim C4: when the config save raises during first-time enrollment, the
bot id is still resolved and cached and the bot is still an administrator in
memory; every later resolution returns the cached id without touching the
state or raising. -/
theorem enrollment_survives_save_failure (st : PluginState) (e : Event)
    (h0 : st.bot_id = [])
    (hb : normalize_user_id e.message_obj.self_id ≠ []) :
    (get_bot_id st e true).1.bot_id = normalize_user_id e.message_obj.self_id
    ∧ normalize_user_id e.message_obj.self_id
      ∈ (get_bot_id st e true).1.administrators
    ∧ (∀ (e2 : Event) (sf : Bool),
        get_bot_id (get_bot_id st e true).1 e2 sf
          = ((get_bot_id st e true).1, (get_bot_id st e true).1.bot_id, false)) := by
  by_cases hmem : normalize_user_id e.message_obj.self_id ∈ st.administrators
  · have hg : get_bot_id st e true
        = ({ st with bot_id := normalize_user_id e.message_obj.self_id },
            normalize_user_id e.message_obj.self_id, false) := by
      unfold get_bot_id add_bot_to_administrators
      rw [if_pos h0]
      dsimp only
      rw [if_neg (by simp [hmem])]
    refine ⟨by rw [hg], by rw [hg]; exact hmem, fun e2 sf => ?_⟩
    rw [hg]
    unfold get_bot_id
    rw [if_neg (by simpa using hb)]
  · have hg : get_bot_id st e true
        = (⟨st.temporary_blacklist,
            st.administrators ++ [normalize_user_id e.message_obj.self_id],
            normalize_user_id e.message_obj.self_id,
            st.default_blacklist_duration,
            st.administrators ++ [normalize_user_id e.message_obj.self_id]⟩,
            normalize_user_id e.message_obj.self_id, true) := by
      unfold get_bot_id add_bot_to_administrators
      rw [if_pos h0]
      dsimp only
      rw [if_pos (by simp [hb, hmem])]
    refine ⟨by rw [hg], by rw [hg]; simp, fun e2 sf => ?_⟩
    rw [hg]
    unfold get_bot_id
    rw [if_neg (by simpa using hb)]

/-- Claim C4 witness: first event resolves bot id `"b"` while the save
raises; the id is cached and enrolled. -/
theorem enrollment_survives_save_failure_witness :
    (get_bot_id ⟨fun _ => none, [('a' :: [])], [], 5, [('a' :: [])]⟩
        ⟨⟨.str ('b' :: []), ⟨.str ('a' :: [])⟩, []⟩⟩ true).1.bot_id
      = normalize_user_id (.str ('b' :: [])) :=
  (enrollment_survives_save_failure
    ⟨fun _ => none, [('a' :: [])], [], 5, [('a' :: [])]⟩
    ⟨⟨.str ('b' :: []), ⟨.str ('a' :: [])⟩, []⟩⟩
    (by decide) (by decide)).1

/-- Auto-ban on an administrator sender returns the bot-resolved state. -/
theorem auto_blacklist_admin_case (st : PluginState) (e : Event)
    (od : Option Int) (now : Int)
    (h : normalize_user_id e.message_obj.sender.user_id
      ∈ (get_bot_id st e false).1.administrators) :
    auto_blacklist_by_bot st e od now false = ((get_bot_id st e false).1, false) := by
  unfold auto_blacklist_by_bot
  dsimp only
  rw [get_bot_id_no_raise]
  simp [h]

/-- Auto-ban on a non-administrator sender bans them for the requested or
default duration. -/
theorem auto_blacklist_nonadmin_case (st : PluginState) (e : Event)
    (od : Option Int) (now : Int)
    (h : normalize_user_id e.message_obj.sender.user_id
      ∉ (get_bot_id st e false).1.administrators) :
    auto_blacklist_by_bot st e od now false
      = (add_to_blacklist (get_bot_id st e false).1
          (normalize_user_id e.message_obj.sender.user_id)
          (od.getD (get_bot_id st e false).1.default_blacklist_duration) now,
        false) := by
  unfold auto_blacklist_by_bot
  dsimp only
  rw [get_bot_id_no_raise]
  simp only [Bool.false_eq_true, if_false, h, if_neg]
  cases od <;> simp [Option.getD]

/-- Claim C5: the automated-moderation entry point leaves the registry
unchanged when the event's sender is an administrator, and otherwise bans the
sender for the requested duration or, absent one, the configured default —
directly, with no dispatch or retaliation. -/
theorem auto_blacklist_spec (st : PluginState) (e : Event) (od : Option Int)
    (now : Int) :
    (normalize_user_id e.message_obj.sender.user_id
        ∈ (get_bot_id st e false).1.administrators →
      (auto_blacklist_by_bot st e od now false).1.temporary_blacklist
        = st.temporary_blacklist)
    ∧ (normalize_user_id e.message_obj.sender.user_id
        ∉ (get_bot_id st e false).1.administrators →
      (auto_blacklist_by_bot st e od now false).1
        = add_to_blacklist (get_bot_id st e false).1
            (normalize_user_id e.message_obj.sender.user_id)
            (od.getD (get_bot_id st e false).1.default_blacklist_duration) now) := by
  constructor
  · intro h
    rw [auto_blacklist_admin_case st e od now h]
    exact get_bot_id_blacklist st e false
  · intro h
    rw [auto_blacklist_nonadmin_case st e od now h]

/-- Claim C5 witness: an administrator sender is not auto-banned. -/
theorem auto_blacklist_spec_witness :
    (auto_blacklist_by_bot
        ⟨fun _ => none, [('a' :: [])], ('b' :: []), 5, [('a' :: [])]⟩
        ⟨⟨.str ('b' :: []), ⟨.str ('a' :: [])⟩, []⟩⟩ none 100 false).1.temporary_blacklist
      = (⟨fun _ => none, [('a' :: [])], ('b' :: []), 5,
          [('a' :: [])]⟩ : PluginState).temporary_blacklist :=
  (auto_blacklist_spec
    ⟨fun _ => none, [('a' :: [])], ('b' :: []), 5, [('a' :: [])]⟩
    ⟨⟨.str ('b' :: []), ⟨.str ('a' :: [])⟩, []⟩⟩ none 100).1 (by decide)

/-- Claim C10: the automated entry point does not validate the duration: any
explicit duration, zero or negative included, is written as
`now + duration * 60`; a non-positive duration yields an entry that never
blocks at any time from `now` on. -/
theorem auto_blacklist_no_validation (st : PluginState) (e : Event)
    (d now : Int)
    (hadmin : normalize_user_id e.message_obj.sender.user_id
      ∉ (get_bot_id st e false).1.administrators) :
    (auto_blacklist_by_bot st e (some d) now false).1.temporary_blacklist
        (normalize_user_id e.message_obj.sender.user_id) = some (now + d * 60)
    ∧ (d ≤ 0 → ∀ t : Int, now ≤ t →
        (consult_temporary_blacklist
          (auto_blacklist_by_bot st e (some d) now false).1.temporary_blacklist
          (normalize_user_id e.message_obj.sender.user_id) t).2 = false) := by
  have hr := auto_blacklist_nonadmin_case st e (some d) now hadmin
  constructor
  · rw [hr]
    simp [add_to_blacklist, dictSet]
  · intro hd t ht
    rw [hr]
    have hnt : ¬(t < now + d * 60) := by omega
    simp [add_to_blacklist, dictSet, consult_temporary_blacklist, hnt, dictDel]

/-- Claim C10 witness: auto-ban with explicit duration 0 writes an entry that
is already expired. -/
theorem auto_blacklist_no_validation_witness :
    (auto_blacklist_by_bot
        ⟨fun _ => none, [('a' :: [])], ('b' :: []), 5, [('a' :: [])]⟩
        ⟨⟨.str ('b' :: []), ⟨.str ('u' :: [])⟩, []⟩⟩ (some 0) 100 false).1.temporary_blacklist
        (normalize_user_id (.str ('u' :: []))) = some (100 + 0 * 60) :=
  (auto_blacklist_no_validation
    ⟨fun _ => none, [('a' :: [])], ('b' :: []), 5, [('a' :: [])]⟩
    ⟨⟨.str ('b' :: []), ⟨.str ('u' :: [])⟩, []⟩⟩ 0 100 (by decide)).1

/-- Claim C1 counterexample: the claim fails as stated.  First input: sender
`"a"`, administrator target `"b"`, requested duration `0` — the claim demands
a retaliation ban of `max 5 0 = 5` minutes on the sender, but the duration
check runs first and nothing is written.  Second input: target empty while
`""` is an administrator — the empty target defaults to the sender before the
administrator check, so the sender is self-banned for the plain duration `2`
rather than `max 5 2 = 5`. -/
theorem retaliation_counterexample :
    (handle_normal_user_blacklist
        ⟨fun _ => none, [('b' :: [])], ('x' :: []), 5, [('b' :: [])]⟩
        ('a' :: []) ('b' :: []) 0 100).temporary_blacklist ('a' :: []) = none
    ∧ (handle_normal_user_blacklist
        ⟨fun _ => none, [[]], ('x' :: []), 5, [[]]⟩
        ('a' :: []) [] 2 100).temporary_blacklist ('a' :: [])
      = some (100 + 2 * 60) := by
  constructor <;> rfl

/-- Claim C1 (amended): for a non-administrator sender, a non-empty
administrator target and a positive effective duration, the handler bans the
sender for `max 5 duration` minutes and leaves the target's entry
untouched. -/
theorem retaliation_spec (st : PluginState) (sender_id target_id : UserId)
    (d now : Int)
    (hs : sender_id ∉ st.administrators)
    (ht : target_id ∈ st.administrators)
    (hne : target_id ≠ [])
    (hd : 0 < d) :
    handle_normal_user_blacklist st sender_id target_id d now
      = add_to_blacklist st sender_id (max 5 d) now
    ∧ (handle_normal_user_blacklist st sender_id target_id d now).temporary_blacklist
        sender_id = some (now + max 5 d * 60)
    ∧ (handle_normal_user_blacklist st sender_id target_id d now).temporary_blacklist
        target_id = st.temporary_blacklist target_id := by
  have hts : target_id ≠ sender_id := fun hh => hs (hh ▸ ht)
  have h1 : handle_normal_user_blacklist st sender_id target_id d now
      = add_to_blacklist st sender_id (max 5 d) now := by
    unfold handle_normal_user_blacklist
    rw [if_neg hne, if_neg (by omega), if_pos ht]
  refine ⟨h1, ?_, ?_⟩
  · rw [h1]
    simp [add_to_blacklist, dictSet]
  · rw [h1]
    simp [add_to_blacklist, dictSet, hts]

/-- Claim C1 witness: normal user `"a"` tries to ban administrator `"b"` for
2 minutes and is banned for 5 instead. -/
theorem retaliation_spec_witness :
    (handle_normal_user_blacklist
        ⟨fun _ => none, [('b' :: [])], ('x' :: []), 5, [('b' :: [])]⟩
        ('a' :: []) ('b' :: []) 2 100).temporary_blacklist ('a' :: [])
      = some (100 + max 5 2 * 60) :=
  (retaliation_spec
    ⟨fun _ => none, [('b' :: [])], ('x' :: []), 5, [('b' :: [])]⟩
    ('a' :: []) ('b' :: []) 2 100
    (by decide) (by decide) (by decide) (by decide)).2.1

/-- Claim C6: the admin path bans exactly when the target is non-empty, not
an administrator, and the duration is positive; in every failing case the
state is returned unchanged (and, being a total function, nothing is ever
raised). -/
theorem admin_blacklist_spec (st : PluginState) (target_id : UserId)
    (d now : Int) :
    (target_id ≠ [] ∧ target_id ∉ st.administrators ∧ 0 < d →
      handle_admin_blacklist st target_id d now
        = add_to_blacklist st target_id d now)
    ∧ (target_id = [] ∨ target_id ∈ st.administrators ∨ d ≤ 0 →
      handle_admin_blacklist st target_id d now = st) := by
  constructor
  · rintro ⟨h1, h2, h3⟩
    unfold handle_admin_blacklist
    rw [if_neg h1, if_neg h2, if_neg (by omega)]
  · intro h
    unfold handle_admin_blacklist
    rcases h with h | h | h
    · rw [if_pos h]
    · by_cases h1 : target_id = []
      · rw [if_pos h1]
      · rw [if_neg h1, if_pos h]
    · by_cases h1 : target_id = []
      · rw [if_pos h1]
      · by_cases h2 : target_id ∈ st.administrators
        · rw [if_neg h1, if_pos h2]
        · rw [if_neg h1, if_neg h2, if_pos h]

/-- Claim C6 witness: an administrator banning a fellow administrator is a
no-op. -/
theorem admin_blacklist_spec_witness :
    handle_admin_blacklist
        ⟨fun _ => none, [('b' :: [])], ('x' :: []), 5, [('b' :: [])]⟩
        ('b' :: []) 5 100
      = ⟨fun _ => none, [('b' :: [])], ('x' :: []), 5, [('b' :: [])]⟩ :=
  (admin_blacklist_spec
    ⟨fun _ => none, [('b' :: [])], ('x' :: []), 5, [('b' :: [])]⟩
    ('b' :: []) 5 100).2 (Or.inr (Or.inl (by decide)))

/-- Claim C7: a normal user naming a non-empty target that is neither an
administrator nor themselves changes nothing: the whole state, registry
included, is returned as-is. -/
theorem normal_user_other_target_noop (st : PluginState)
    (sender_id target_id : UserId) (d now : Int)
    (hne : target_id ≠ [])
    (hadm : target_id ∉ st.administrators)
    (hts : target_id ≠ sender_id) :
    handle_normal_user_blacklist st sender_id target_id d now = st := by
  unfold handle_normal_user_blacklist
  rw [if_neg hne]
  by_cases hd : d ≤ 0
  · rw [if_pos hd]
  · rw [if_neg hd, if_neg hadm, if_neg hts]

/-- Claim C7 witness: normal user `"a"` tries to ban normal user `"c"`;
nothing happens. -/
theorem normal_user_other_target_noop_witness :
    handle_normal_user_blacklist
        ⟨fun _ => none, [('b' :: [])], ('x' :: []), 5, [('b' :: [])]⟩
        ('a' :: []) ('c' :: []) 3 100
      = ⟨fun _ => none, [('b' :: [])], ('x' :: []), 5, [('b' :: [])]⟩ :=
  normal_user_other_target_noop
    ⟨fun _ => none, [('b' :: [])], ('x' :: []), 5, [('b' :: [])]⟩
    ('a' :: []) ('c' :: []) 3 100 (by decide) (by decide) (by decide)

/-- Claim C9: with an administrator target and a non-positive duration the
normal-user path returns the state unchanged — the duration check precedes
the retaliation rule, so no floor-5 retaliation ban is written. -/
theorem nonpositive_duration_no_retaliation (st : PluginState)
    (sender_id target_id : UserId) (d now : Int)
    (ht : target_id ∈ st.administrators)
    (hd : d ≤ 0) :
    handle_normal_user_blacklist st sender_id target_id d now = st := by
  unfold handle_normal_user_blacklist
  dsimp only
  rw [if_pos hd]

/-- Claim C9 witness: duration 0 against administrator target `"b"` is a
no-op. -/
theorem nonpositive_duration_no_retaliation_witness :
    handle_normal_user_blacklist
        ⟨fun _ => none, [('b' :: [])], ('x' :: []), 5, [('b' :: [])]⟩
        ('a' :: []) ('b' :: []) 0 100
      = ⟨fun _ => none, [('b' :: [])], ('x' :: []), 5, [('b' :: [])]⟩ :=
  nonpositive_duration_no_retaliation
    ⟨fun _ => none, [('b' :: [])], ('x' :: []), 5, [('b' :: [])]⟩
    ('a' :: []) ('b' :: []) 0 100 (by decide) (by decide)
